import Mathlib

/-!
Firewall rule requests (`fwaas_v2/rules/requests.go`).

A shallow embedding of the request side of the firewall-rule binding:
the option structs with their field tags, the two serialisation methods
`ToRuleCreateMap` and `ToRuleUpdateMap`, and the operations `Create`,
`Update` and `Delete` over a transport client.

Go values are embedded as follows.

* A `map[string]interface{}` is an association list with distinct keys,
  read with `mapIndex` and written with `mapAssign`; a `nil` map is `none`.
* A multi-value return `(m, err)` is a pair whose second component is
  `none` for a `nil` error.
* A run-time panic (a failed type assertion) is the outcome `Outcome.abort`.
* The transport client is a parameter: its four verbs are functions that
  take the state of the outside world and give back a response and the
  next state.
-/

namespace Rules

/-! ## Values held in a request body -/

/-- A value stored under a key of a `map[string]interface{}` request body. -/
inductive JSON where
  | null
  | bool (b : Bool)
  | num (n : Int)
  | str (s : String)
  | obj (kvs : List (String × JSON))

/-- The entries of a non-nil `map[string]interface{}`. -/
abbrev Payload := List (String × JSON)

/-- The Go expression `m[k]` on a map: `none` is the nil interface value
that a missing key yields. -/
def mapIndex : Payload → String → Option JSON
  | [], _ => none
  | (k', v) :: rest, k => if k = k' then some v else mapIndex rest k

/-- The Go statement `m[k] = v`: the entry under `k` is replaced, or a new
entry is added when the key is missing. -/
def mapAssign : Payload → String → JSON → Payload
  | [], k, v => [(k, v)]
  | (k', v') :: rest, k, v =>
    if k = k' then (k, v) :: rest else (k', v') :: mapAssign rest k v

/-- The keys of a map. -/
def mapKeys (m : Payload) : List String := m.map Prod.fst

/-- Indexing a possibly nil map: a nil map has no entries. -/
def goIndex : Option Payload → String → Option JSON
  | none, _ => none
  | some m, k => mapIndex m k

/-! ## Errors and outcomes -/

/-- Errors returned by this layer and its collaborators. -/
inductive GoError where
  | ErrMissingInput (argument : String)
  | other (msg : String)
  deriving DecidableEq, Repr

/-- What a call does: it returns a value, or it panics. -/
inductive Outcome (α : Type) where
  | done (a : α)
  | abort

/-- The pair `(map[string]interface{}, error)` returned by a serialisation
method. -/
abbrev MapAndErr := Option Payload × Option GoError

/-! ## The request body builder -/

/-- The field values that occur in the option structs. -/
inductive GoValue where
  | str (s : String)
  | int (n : Int)
  | bool (b : Bool)
  | ptr (p : Option GoValue)

/-- One exported struct field as reflection sees it: its Go name, the key
and the `omitempty` flag of its `json` tag, its `required:"true"` tag and
its value. -/
structure Field where
  name : String
  jsonKey : String
  omitempty : Bool
  required : Bool
  value : GoValue

/-- Modelled from the spec: the zero test of the body builder
(`gophercloud.isZero`, not part of this file): an empty string, the number
zero, `false` and a nil pointer are zero; a non-nil pointer is not,
whatever it points to. -/
def isZero : GoValue → Bool
  | .str s => s = ""
  | .int n => n = 0
  | .bool b => !b
  | .ptr none => true
  | .ptr (some _) => false

/-- Modelled from the spec: the value a field contributes to the payload;
a pointer contributes what it points to, a nil pointer contributes null. -/
def toJSON : GoValue → JSON
  | .str s => .str s
  | .int n => .num n
  | .bool b => .bool b
  | .ptr none => .null
  | .ptr (some v) => toJSON v

/-- Modelled from the spec: the first required field, in declaration
order, whose value is zero. -/
def missingRequired : List Field → Option String
  | [] => none
  | f :: rest => if f.required && isZero f.value then some f.name else missingRequired rest

/-- Modelled from the spec: the flat map of a struct; a field tagged
`omitempty` whose value is zero is left out, every other field appears
under its JSON key. -/
def marshalFields : List Field → Payload
  | [] => []
  | f :: rest =>
    if f.omitempty && isZero f.value then marshalFields rest
    else (f.jsonKey, toJSON f.value) :: marshalFields rest

/-- Modelled from the spec: `gophercloud.BuildRequestBody`, the generic
struct-to-map builder that honours the `required` and `omitempty` tags
(it is not part of this file). A zero required field gives
`ErrMissingInput` naming the field and a nil map; otherwise the flat map is
built and, for a non-empty `parent`, wrapped under that key. -/
def BuildRequestBody (fields : List Field) (parent : String) : MapAndErr :=
  match missingRequired fields with
  | some arg => (none, some (.ErrMissingInput arg))
  | none =>
    if parent = "" then (some (marshalFields fields), none)
    else (some [(parent, .obj (marshalFields fields))], none)

/-! ## Protocols, actions and the option structs -/

/-- `type Protocol string`. -/
abbrev Protocol := String

def ProtocolAny : Protocol := "any"
def ProtocolICMP : Protocol := "icmp"
def ProtocolTCP : Protocol := "tcp"
def ProtocolUDP : Protocol := "udp"

/-- `type Action string`. -/
abbrev Action := String

def ActionAllow : Action := "allow"
def ActionDeny : Action := "deny"
def ActionReject : Action := "reject"

/-- `gophercloud.IPVersion`, an integer type. -/
abbrev IPVersion := Int

/-- The values needed to create a firewall rule. `Shared` and `Enabled`
are `*bool`: `none` is the nil pointer. -/
structure CreateOpts where
  Protocol : Protocol := ""
  Action : Action := ""
  TenantID : String := ""
  Name : String := ""
  Description : String := ""
  IPVersion : IPVersion := 0
  SourceIPAddress : String := ""
  DestinationIPAddress : String := ""
  SourcePort : String := ""
  DestinationPort : String := ""
  Shared : Option Bool := none
  Enabled : Option Bool := none

/-- The fields of `CreateOpts` with the tags of its declaration. -/
def CreateOpts.fields (opts : CreateOpts) : List Field :=
  [ ⟨"Protocol", "protocol", false, true, .str opts.Protocol⟩,
    ⟨"Action", "action", false, true, .str opts.Action⟩,
    ⟨"TenantID", "tenant_id", true, false, .str opts.TenantID⟩,
    ⟨"Name", "name", true, false, .str opts.Name⟩,
    ⟨"Description", "description", true, false, .str opts.Description⟩,
    ⟨"IPVersion", "ip_version", true, false, .int opts.IPVersion⟩,
    ⟨"SourceIPAddress", "source_ip_address", true, false, .str opts.SourceIPAddress⟩,
    ⟨"DestinationIPAddress", "destination_ip_address", true, false,
      .str opts.DestinationIPAddress⟩,
    ⟨"SourcePort", "source_port", true, false, .str opts.SourcePort⟩,
    ⟨"DestinationPort", "destination_port", true, false, .str opts.DestinationPort⟩,
    ⟨"Shared", "shared", true, false, .ptr (opts.Shared.map .bool)⟩,
    ⟨"Enabled", "enabled", true, false, .ptr (opts.Enabled.map .bool)⟩ ]

/-- The method `CreateOpts.ToRuleCreateMap`: build the body under
`"firewall_rule"`; on an error return a nil map and the error; otherwise
assert that the entry under `"firewall_rule"` is a map (a failed assertion
panics) and, when that map holds the string `"any"` under `"protocol"`,
store nil there. The inner map is shared with the body, so the body
returned carries the change. -/
def CreateOpts.ToRuleCreateMap (opts : CreateOpts) : Outcome MapAndErr :=
  match BuildRequestBody opts.fields "firewall_rule" with
  | (_, some err) => .done (none, some err)
  | (b, none) =>
    match goIndex b "firewall_rule" with
    | some (.obj m) =>
      match mapIndex m "protocol" with
      | some (.str "any") =>
        .done ((b.map fun top => mapAssign top "firewall_rule"
          (.obj (mapAssign m "protocol" .null))), none)
      | _ => .done (b, none)
    | _ => .abort

/-- The values used when updating a firewall rule: every field is a
pointer, `none` being the nil pointer of a field the caller did not set. -/
structure UpdateOpts where
  Protocol : Option Protocol := none
  Action : Option Action := none
  Name : Option String := none
  Description : Option String := none
  IPVersion : Option IPVersion := none
  SourceIPAddress : Option String := none
  DestinationIPAddress : Option String := none
  SourcePort : Option String := none
  DestinationPort : Option String := none
  Shared : Option Bool := none
  Enabled : Option Bool := none

/-- The fields of `UpdateOpts` with the tags of its declaration. -/
def UpdateOpts.fields (opts : UpdateOpts) : List Field :=
  [ ⟨"Protocol", "protocol", true, false, .ptr (opts.Protocol.map .str)⟩,
    ⟨"Action", "action", true, false, .ptr (opts.Action.map .str)⟩,
    ⟨"Name", "name", true, false, .ptr (opts.Name.map .str)⟩,
    ⟨"Description", "description", true, false, .ptr (opts.Description.map .str)⟩,
    ⟨"IPVersion", "ip_version", true, false, .ptr (opts.IPVersion.map .int)⟩,
    ⟨"SourceIPAddress", "source_ip_address", true, false,
      .ptr (opts.SourceIPAddress.map .str)⟩,
    ⟨"DestinationIPAddress", "destination_ip_address", true, false,
      .ptr (opts.DestinationIPAddress.map .str)⟩,
    ⟨"SourcePort", "source_port", true, false, .ptr (opts.SourcePort.map .str)⟩,
    ⟨"DestinationPort", "destination_port", true, false,
      .ptr (opts.DestinationPort.map .str)⟩,
    ⟨"Shared", "shared", true, false, .ptr (opts.Shared.map .bool)⟩,
    ⟨"Enabled", "enabled", true, false, .ptr (opts.Enabled.map .bool)⟩ ]

/-- The method `UpdateOpts.ToRuleUpdateMap`: the body built under
`"firewall_rule"`, returned as it is. -/
def UpdateOpts.ToRuleUpdateMap (opts : UpdateOpts) : Outcome MapAndErr :=
  .done (BuildRequestBody opts.fields "firewall_rule")

/-! ## Builders, the transport client and results -/

/-- The interface `CreateOptsBuilder`: anything with a `ToRuleCreateMap`
method; the field is what a call of that method does. -/
structure CreateOptsBuilder where
  ToRuleCreateMap : Outcome MapAndErr

/-- The interface `UpdateOptsBuilder`. -/
structure UpdateOptsBuilder where
  ToRuleUpdateMap : Outcome MapAndErr

/-- A `CreateOpts` used as a `CreateOptsBuilder`. -/
def CreateOpts.asBuilder (opts : CreateOpts) : CreateOptsBuilder :=
  ⟨opts.ToRuleCreateMap⟩

/-- An `UpdateOpts` used as an `UpdateOptsBuilder`. -/
def UpdateOpts.asBuilder (opts : UpdateOpts) : UpdateOptsBuilder :=
  ⟨opts.ToRuleUpdateMap⟩

/-- `gophercloud.RequestOpts`, of which only `OkCodes` is set here. -/
structure RequestOpts where
  OkCodes : List Int
  deriving DecidableEq, Repr

/-- What a verb of the transport leaves behind: the value decoded into the
target it was given (`none` when the target is untouched) and its error. -/
structure Response where
  body : Option JSON
  err : Option GoError

/-- The transport client `*gophercloud.ServiceClient`, over the state `σ`
of the outside world. Its verbs are parameters of the development; a nil
`*RequestOpts` argument is `none`. `Delete` has no request body and no
decode target. `collectionURL` is the URL that `rootURL` gives for this
client. -/
structure ServiceClient (σ : Type) where
  collectionURL : String
  Post : String → Option Payload → Option RequestOpts → σ → Response × σ
  Get : String → Option RequestOpts → σ → Response × σ
  Put : String → Option Payload → Option RequestOpts → σ → Response × σ
  Delete : String → Option RequestOpts → σ → Option GoError × σ

/-- Modelled from the spec: `rootURL` (declared in the package's URL file,
which is not part of this file), the collection URL of the rules. -/
def rootURL {σ : Type} (c : ServiceClient σ) : String := c.collectionURL

/-- Modelled from the spec: `resourceURL` (declared in the package's URL
file, which is not part of this file), the collection URL followed by `/`
and the identifier. -/
def resourceURL {σ : Type} (c : ServiceClient σ) (id : String) : String :=
  c.collectionURL ++ "/" ++ id

/-- A result wrapper with a body; both fields start at their zero value. -/
structure CreateResult where
  Body : Option JSON := none
  Err : Option GoError := none

/-- The result of `Get`. -/
structure GetResult where
  Body : Option JSON := none
  Err : Option GoError := none

/-- The result of `Update`. -/
structure UpdateResult where
  Body : Option JSON := none
  Err : Option GoError := none

/-- The result of `Delete`, which carries an error only. -/
structure DeleteResult where
  Err : Option GoError := none

/-! ## The operations -/

/-- The function `Create`: serialise; on an error keep it in the result and
return; otherwise POST the body to the collection URL with nil options. -/
def Create {σ : Type} (c : ServiceClient σ) (opts : CreateOptsBuilder) (w : σ) :
    Outcome (CreateResult × σ) :=
  match opts.ToRuleCreateMap with
  | .abort => .abort
  | .done (_, some err) => .done ({ Err := some err }, w)
  | .done (b, none) =>
    match c.Post (rootURL c) b none w with
    | (resp, w') => .done ({ Body := resp.body, Err := resp.err }, w')

/-- The function `Get`. -/
def Get {σ : Type} (c : ServiceClient σ) (id : String) (w : σ) : GetResult × σ :=
  match c.Get (resourceURL c id) none w with
  | (resp, w') => ({ Body := resp.body, Err := resp.err }, w')

/-- The function `Update`: serialise; on an error keep it in the result and
return; otherwise PUT the body to the resource URL with `OkCodes` `[200]`. -/
def Update {σ : Type} (c : ServiceClient σ) (id : String) (opts : UpdateOptsBuilder)
    (w : σ) : Outcome (UpdateResult × σ) :=
  match opts.ToRuleUpdateMap with
  | .abort => .abort
  | .done (_, some err) => .done ({ Err := some err }, w)
  | .done (b, none) =>
    match c.Put (resourceURL c id) b (some { OkCodes := [200] }) w with
    | (resp, w') => .done ({ Body := resp.body, Err := resp.err }, w')

/-- The function `Delete`: one DELETE to the resource URL with nil options. -/
def Delete {σ : Type} (c : ServiceClient σ) (id : String) (w : σ) : DeleteResult × σ :=
  match c.Delete (resourceURL c id) none w with
  | (err, w') => ({ Err := err }, w')

/-! ## A transport that records its calls -/

/-- One call of a verb of the transport: the verb, the URL, the request
body (`none` for a verb without one) and the options. -/
structure Call where
  method : String
  url : String
  body : Option (Option Payload)
  opts : Option RequestOpts

/-- A transport whose state is the list of the calls made so far, oldest
first, and whose answers are given by `reply`. -/
def recorder (collection : String) (reply : Call → Response) : ServiceClient (List Call) where
  collectionURL := collection
  Post := fun url b o w => (reply ⟨"POST", url, some b, o⟩, w ++ [⟨"POST", url, some b, o⟩])
  Get := fun url o w => (reply ⟨"GET", url, none, o⟩, w ++ [⟨"GET", url, none, o⟩])
  Put := fun url b o w => (reply ⟨"PUT", url, some b, o⟩, w ++ [⟨"PUT", url, some b, o⟩])
  Delete := fun url o w =>
    ((reply ⟨"DELETE", url, none, o⟩).err, w ++ [⟨"DELETE", url, none, o⟩])


/-- A builder other than `CreateOpts`: its method hands back a body whose
protocol is the literal string `"any"`. -/
def literalAnyBuilder : CreateOptsBuilder :=
  ⟨.done (some [("firewall_rule",
    .obj [("protocol", .str "any"), ("action", .str "allow")])], none)⟩

/-- An update builder whose method fails with the given error. -/
def failingUpdateBuilder (e : GoError) : UpdateOptsBuilder :=
  ⟨.done (none, some e)⟩

/-- A transport answer with no body and no error. -/
def emptyReply : Call → Response := fun _ => ⟨none, none⟩

/-- A transport answer with no body and an error, as for a status that is
not accepted. -/
def refusingReply : Call → Response := fun _ => ⟨none, some (.other "unexpected status")⟩

/-! ## Facts about maps and the body builder -/

theorem mapIndex_isSome_iff (m : Payload) (k : String) :
    (mapIndex m k).isSome ↔ k ∈ mapKeys m := by
  induction m with
  | nil => simp [mapIndex, mapKeys]
  | cons kv rest ih =>
    obtain ⟨k', v⟩ := kv
    by_cases h : k = k'
    · simp [mapIndex, mapKeys, h]
    · simp only [mapKeys] at ih
      simp [mapIndex, mapKeys, h, ih]

theorem mapIndex_marshal_cons (f : Field) (fs : List Field) (k : String) :
    mapIndex (marshalFields (f :: fs)) k =
      if (f.omitempty && isZero f.value) = true then mapIndex (marshalFields fs) k
      else if k = f.jsonKey then some (toJSON f.value)
      else mapIndex (marshalFields fs) k := by
  by_cases h : (f.omitempty && isZero f.value) = true
  · simp only [marshalFields, h, if_true]
  · simp only [marshalFields, h, if_false, mapIndex]
    rfl

theorem mapKeys_marshal_sublist (fs : List Field) :
    (mapKeys (marshalFields fs)).Sublist (fs.map Field.jsonKey) := by
  induction fs with
  | nil => simp [marshalFields, mapKeys]
  | cons f rest ih =>
    by_cases h : (f.omitempty && isZero f.value) = true
    · simp only [marshalFields, h, if_true, List.map_cons]
      exact ih.trans (List.sublist_cons_self _ _)
    · simp only [marshalFields, h, if_false, List.map_cons, mapKeys] 
      exact List.Sublist.cons₂ _ ih

theorem missingRequired_create (opts : CreateOpts) (hP : opts.Protocol ≠ "")
    (hA : opts.Action ≠ "") : missingRequired opts.fields = none := by
  simp [CreateOpts.fields, missingRequired, isZero, hP, hA]

theorem missingRequired_update (opts : UpdateOpts) : missingRequired opts.fields = none := by
  simp [UpdateOpts.fields, missingRequired]

theorem create_ok (opts : CreateOpts) (hP : opts.Protocol ≠ "") (hA : opts.Action ≠ "") :
    opts.ToRuleCreateMap = .done (some [("firewall_rule", .obj
      (("protocol", if opts.Protocol = "any" then JSON.null else .str opts.Protocol) ::
        ("action", .str opts.Action) :: marshalFields (opts.fields.drop 2)))], none) := by
  have hm : marshalFields opts.fields = ("protocol", JSON.str opts.Protocol) ::
        ("action", .str opts.Action) :: marshalFields (opts.fields.drop 2) := by
    simp [CreateOpts.fields, marshalFields, toJSON]
  unfold CreateOpts.ToRuleCreateMap BuildRequestBody
  rw [missingRequired_create opts hP hA, hm]
  simp [goIndex, mapIndex, mapAssign]
  split <;> simp_all

theorem create_err (opts : CreateOpts) (h : opts.Protocol = "" ∨ opts.Action = "") :
    opts.ToRuleCreateMap = .done (none, some (.ErrMissingInput
      (if opts.Protocol = "" then "Protocol" else "Action"))) := by
  have hm : missingRequired opts.fields =
      some (if opts.Protocol = "" then "Protocol" else "Action") := by
    by_cases hP : opts.Protocol = ""
    · simp [CreateOpts.fields, missingRequired, isZero, hP]
    · have hA : opts.Action = "" := h.resolve_left hP
      simp [CreateOpts.fields, missingRequired, isZero, hP, hA]
  unfold CreateOpts.ToRuleCreateMap BuildRequestBody
  rw [hm]

theorem update_ok (opts : UpdateOpts) :
    opts.ToRuleUpdateMap =
      .done (some [("firewall_rule", .obj (marshalFields opts.fields))], none) := by
  unfold UpdateOpts.ToRuleUpdateMap BuildRequestBody
  rw [missingRequired_update]
  simp

theorem create_keys (opts : CreateOpts) (k : String)
    (h : k ∈ "protocol" :: "action" :: mapKeys (marshalFields (opts.fields.drop 2))) :
    k ∈ ["protocol", "action", "tenant_id", "name", "description", "ip_version",
      "source_ip_address", "destination_ip_address", "source_port", "destination_port",
      "shared", "enabled"] := by
  have hs := (mapKeys_marshal_sublist (opts.fields.drop 2)).subset
  rcases List.mem_cons.1 h with h | h
  · simp [h]
  rcases List.mem_cons.1 h with h | h
  · simp [h]
  have := hs h
  simp [CreateOpts.fields] at this
  simp
  tauto

theorem update_keys (opts : UpdateOpts) (k : String)
    (h : k ∈ mapKeys (marshalFields opts.fields)) :
    k ∈ ["protocol", "action", "name", "description", "ip_version",
      "source_ip_address", "destination_ip_address", "source_port", "destination_port",
      "shared", "enabled"] := by
  have := (mapKeys_marshal_sublist opts.fields).subset h
  simpa [UpdateOpts.fields] using this

theorem update_nodup (opts : UpdateOpts) : (mapKeys (marshalFields opts.fields)).Nodup := by
  refine List.Nodup.sublist (mapKeys_marshal_sublist opts.fields) ?_
  simp [UpdateOpts.fields]

theorem create_nodup (opts : CreateOpts) :
    ("protocol" :: "action" :: mapKeys (marshalFields (opts.fields.drop 2))).Nodup := by
  have hs := mapKeys_marshal_sublist (opts.fields.drop 2)
  have hn : ("protocol" :: "action" :: (opts.fields.drop 2).map Field.jsonKey).Nodup := by
    simp [CreateOpts.fields]
  exact hn.sublist ((hs.cons₂ _).cons₂ _)

/-- What each key of the flat map of an `UpdateOpts` holds. -/
theorem update_index (u : UpdateOpts) :
    mapIndex (marshalFields u.fields) "protocol" = u.Protocol.map JSON.str ∧
    mapIndex (marshalFields u.fields) "action" = u.Action.map JSON.str ∧
    mapIndex (marshalFields u.fields) "name" = u.Name.map JSON.str ∧
    mapIndex (marshalFields u.fields) "description" = u.Description.map JSON.str ∧
    mapIndex (marshalFields u.fields) "ip_version" = u.IPVersion.map JSON.num ∧
    mapIndex (marshalFields u.fields) "source_ip_address" = u.SourceIPAddress.map JSON.str ∧
    mapIndex (marshalFields u.fields) "destination_ip_address" =
      u.DestinationIPAddress.map JSON.str ∧
    mapIndex (marshalFields u.fields) "source_port" = u.SourcePort.map JSON.str ∧
    mapIndex (marshalFields u.fields) "destination_port" = u.DestinationPort.map JSON.str ∧
    mapIndex (marshalFields u.fields) "shared" = u.Shared.map JSON.bool ∧
    mapIndex (marshalFields u.fields) "enabled" = u.Enabled.map JSON.bool := by
  refine ⟨?_, ?_, ?_, ?_, ?_, ?_, ?_, ?_, ?_, ?_, ?_⟩
  · simp only [UpdateOpts.fields, mapIndex_marshal_cons]
    cases u.Protocol <;> simp [isZero, toJSON, mapIndex, marshalFields]
  · simp only [UpdateOpts.fields, mapIndex_marshal_cons]
    cases u.Action <;> simp [isZero, toJSON, mapIndex, marshalFields]
  · simp only [UpdateOpts.fields, mapIndex_marshal_cons]
    cases u.Name <;> simp [isZero, toJSON, mapIndex, marshalFields]
  · simp only [UpdateOpts.fields, mapIndex_marshal_cons]
    cases u.Description <;> simp [isZero, toJSON, mapIndex, marshalFields]
  · simp only [UpdateOpts.fields, mapIndex_marshal_cons]
    cases u.IPVersion <;> simp [isZero, toJSON, mapIndex, marshalFields]
  · simp only [UpdateOpts.fields, mapIndex_marshal_cons]
    cases u.SourceIPAddress <;> simp [isZero, toJSON, mapIndex, marshalFields]
  · simp only [UpdateOpts.fields, mapIndex_marshal_cons]
    cases u.DestinationIPAddress <;> simp [isZero, toJSON, mapIndex, marshalFields]
  · simp only [UpdateOpts.fields, mapIndex_marshal_cons]
    cases u.SourcePort <;> simp [isZero, toJSON, mapIndex, marshalFields]
  · simp only [UpdateOpts.fields, mapIndex_marshal_cons]
    cases u.DestinationPort <;> simp [isZero, toJSON, mapIndex, marshalFields]
  · simp only [UpdateOpts.fields, mapIndex_marshal_cons]
    cases u.Shared <;> simp [isZero, toJSON, mapIndex, marshalFields]
  · simp only [UpdateOpts.fields, mapIndex_marshal_cons]
    cases u.Enabled <;> simp [isZero, toJSON, mapIndex, marshalFields]

/-- The keys of the flat map of an `UpdateOpts` are the JSON names of the
fields that are set. -/
theorem update_mem_keys (u : UpdateOpts) (k : String) :
    k ∈ mapKeys (marshalFields u.fields) ↔
      (k = "protocol" ∧ u.Protocol.isSome) ∨ (k = "action" ∧ u.Action.isSome) ∨
      (k = "name" ∧ u.Name.isSome) ∨ (k = "description" ∧ u.Description.isSome) ∨
      (k = "ip_version" ∧ u.IPVersion.isSome) ∨
      (k = "source_ip_address" ∧ u.SourceIPAddress.isSome) ∨
      (k = "destination_ip_address" ∧ u.DestinationIPAddress.isSome) ∨
      (k = "source_port" ∧ u.SourcePort.isSome) ∨
      (k = "destination_port" ∧ u.DestinationPort.isSome) ∨
      (k = "shared" ∧ u.Shared.isSome) ∨ (k = "enabled" ∧ u.Enabled.isSome) := by
  obtain ⟨h1, h2, h3, h4, h5, h6, h7, h8, h9, h10, h11⟩ := update_index u
  constructor
  · intro h
    have hk := update_keys u k h
    have hs := (mapIndex_isSome_iff _ k).2 h
    simp only [List.mem_cons, List.mem_singleton, List.not_mem_nil, or_false] at hk
    rcases hk with rfl | rfl | rfl | rfl | rfl | rfl | rfl | rfl | rfl | rfl | rfl
    · rw [h1] at hs; simp_all
    · rw [h2] at hs; simp_all
    · rw [h3] at hs; simp_all
    · rw [h4] at hs; simp_all
    · rw [h5] at hs; simp_all
    · rw [h6] at hs; simp_all
    · rw [h7] at hs; simp_all
    · rw [h8] at hs; simp_all
    · rw [h9] at hs; simp_all
    · rw [h10] at hs; simp_all
    · rw [h11] at hs; simp_all
  · intro h
    apply (mapIndex_isSome_iff _ k).1
    rcases h with ⟨rfl, h⟩ | ⟨rfl, h⟩ | ⟨rfl, h⟩ | ⟨rfl, h⟩ | ⟨rfl, h⟩ | ⟨rfl, h⟩ |
      ⟨rfl, h⟩ | ⟨rfl, h⟩ | ⟨rfl, h⟩ | ⟨rfl, h⟩ | ⟨rfl, h⟩
    · rw [h1]; simpa using h
    · rw [h2]; simpa using h
    · rw [h3]; simpa using h
    · rw [h4]; simpa using h
    · rw [h5]; simpa using h
    · rw [h6]; simpa using h
    · rw [h7]; simpa using h
    · rw [h8]; simpa using h
    · rw [h9]; simpa using h
    · rw [h10]; simpa using h
    · rw [h11]; simpa using h

/-- What each key of the inner map of a `CreateOpts` body holds, `pv` being
the value stored under `"protocol"`. -/
theorem create_index (opts : CreateOpts) (pv : JSON) (m : Payload)
    (hm : m = ("protocol", pv) :: ("action", .str opts.Action) ::
      marshalFields (opts.fields.drop 2)) :
    mapIndex m "protocol" = some pv ∧
    mapIndex m "action" = some (.str opts.Action) ∧
    mapIndex m "tenant_id" =
      (if opts.TenantID = "" then none else some (.str opts.TenantID)) ∧
    mapIndex m "name" = (if opts.Name = "" then none else some (.str opts.Name)) ∧
    mapIndex m "description" =
      (if opts.Description = "" then none else some (.str opts.Description)) ∧
    mapIndex m "ip_version" =
      (if opts.IPVersion = 0 then none else some (.num opts.IPVersion)) ∧
    mapIndex m "source_ip_address" =
      (if opts.SourceIPAddress = "" then none else some (.str opts.SourceIPAddress)) ∧
    mapIndex m "destination_ip_address" =
      (if opts.DestinationIPAddress = "" then none
        else some (.str opts.DestinationIPAddress)) ∧
    mapIndex m "source_port" =
      (if opts.SourcePort = "" then none else some (.str opts.SourcePort)) ∧
    mapIndex m "destination_port" =
      (if opts.DestinationPort = "" then none else some (.str opts.DestinationPort)) ∧
    mapIndex m "shared" = opts.Shared.map JSON.bool ∧
    mapIndex m "enabled" = opts.Enabled.map JSON.bool := by
  subst hm
  refine ⟨?_, ?_, ?_, ?_, ?_, ?_, ?_, ?_, ?_, ?_, ?_, ?_⟩
  · simp [mapIndex]
  · simp [mapIndex]
  · simp only [CreateOpts.fields, List.drop, mapIndex, mapIndex_marshal_cons]
    by_cases h : opts.TenantID = "" <;> simp [isZero, toJSON, mapIndex, marshalFields, h]
  · simp only [CreateOpts.fields, List.drop, mapIndex, mapIndex_marshal_cons]
    by_cases h : opts.Name = "" <;> simp [isZero, toJSON, mapIndex, marshalFields, h]
  · simp only [CreateOpts.fields, List.drop, mapIndex, mapIndex_marshal_cons]
    by_cases h : opts.Description = "" <;> simp [isZero, toJSON, mapIndex, marshalFields, h]
  · simp only [CreateOpts.fields, List.drop, mapIndex, mapIndex_marshal_cons]
    by_cases h : opts.IPVersion = 0 <;> simp [isZero, toJSON, mapIndex, marshalFields, h]
  · simp only [CreateOpts.fields, List.drop, mapIndex, mapIndex_marshal_cons]
    by_cases h : opts.SourceIPAddress = "" <;>
      simp [isZero, toJSON, mapIndex, marshalFields, h]
  · simp only [CreateOpts.fields, List.drop, mapIndex, mapIndex_marshal_cons]
    by_cases h : opts.DestinationIPAddress = "" <;>
      simp [isZero, toJSON, mapIndex, marshalFields, h]
  · simp only [CreateOpts.fields, List.drop, mapIndex, mapIndex_marshal_cons]
    by_cases h : opts.SourcePort = "" <;> simp [isZero, toJSON, mapIndex, marshalFields, h]
  · simp only [CreateOpts.fields, List.drop, mapIndex, mapIndex_marshal_cons]
    by_cases h : opts.DestinationPort = "" <;>
      simp [isZero, toJSON, mapIndex, marshalFields, h]
  · simp only [CreateOpts.fields, List.drop, mapIndex, mapIndex_marshal_cons]
    cases opts.Shared <;> simp [isZero, toJSON, mapIndex, marshalFields]
  · simp only [CreateOpts.fields, List.drop, mapIndex, mapIndex_marshal_cons]
    cases opts.Enabled <;> simp [isZero, toJSON, mapIndex, marshalFields]

/-- The keys of the inner map of a `CreateOpts` body: the two required
names and the names of the optional fields that are not zero. -/
theorem create_mem_keys (opts : CreateOpts) (pv : JSON) (m : Payload)
    (hm : m = ("protocol", pv) :: ("action", .str opts.Action) ::
      marshalFields (opts.fields.drop 2)) (k : String) :
    k ∈ mapKeys m ↔
      k = "protocol" ∨ k = "action" ∨
      (k = "tenant_id" ∧ opts.TenantID ≠ "") ∨ (k = "name" ∧ opts.Name ≠ "") ∨
      (k = "description" ∧ opts.Description ≠ "") ∨
      (k = "ip_version" ∧ opts.IPVersion ≠ 0) ∨
      (k = "source_ip_address" ∧ opts.SourceIPAddress ≠ "") ∨
      (k = "destination_ip_address" ∧ opts.DestinationIPAddress ≠ "") ∨
      (k = "source_port" ∧ opts.SourcePort ≠ "") ∨
      (k = "destination_port" ∧ opts.DestinationPort ≠ "") ∨
      (k = "shared" ∧ opts.Shared ≠ none) ∨ (k = "enabled" ∧ opts.Enabled ≠ none) := by
  obtain ⟨h1, h2, h3, h4, h5, h6, h7, h8, h9, h10, h11, h12⟩ := create_index opts pv m hm
  constructor
  · intro h
    have hs := (mapIndex_isSome_iff _ k).2 h
    have hk := create_keys opts k (by simpa [hm, mapKeys] using h)
    simp only [List.mem_cons, List.mem_singleton, List.not_mem_nil, or_false] at hk
    rcases hk with rfl | rfl | rfl | rfl | rfl | rfl | rfl | rfl | rfl | rfl | rfl | rfl
    · simp
    · simp
    · rw [h3] at hs; simp_all
    · rw [h4] at hs; simp_all
    · rw [h5] at hs; simp_all
    · rw [h6] at hs; simp_all
    · rw [h7] at hs; simp_all
    · rw [h8] at hs; simp_all
    · rw [h9] at hs; simp_all
    · rw [h10] at hs; simp_all
    · rw [h11] at hs; cases hS : opts.Shared <;> simp_all
    · rw [h12] at hs; cases hE : opts.Enabled <;> simp_all
  · intro h
    apply (mapIndex_isSome_iff _ k).1
    rcases h with rfl | rfl | ⟨rfl, h⟩ | ⟨rfl, h⟩ | ⟨rfl, h⟩ | ⟨rfl, h⟩ | ⟨rfl, h⟩ |
      ⟨rfl, h⟩ | ⟨rfl, h⟩ | ⟨rfl, h⟩ | ⟨rfl, h⟩ | ⟨rfl, h⟩
    · rw [h1]; simp
    · rw [h2]; simp
    · rw [h3]; simp [h]
    · rw [h4]; simp [h]
    · rw [h5]; simp [h]
    · rw [h6]; simp [h]
    · rw [h7]; simp [h]
    · rw [h8]; simp [h]
    · rw [h9]; simp [h]
    · rw [h10]; simp [h]
    · rw [h11]; cases hS : opts.Shared <;> simp_all
    · rw [h12]; cases hE : opts.Enabled <;> simp_all

/-! ## Serialisation of `CreateOpts` -/

/-- Claim C1: for a `CreateOpts` whose protocol is `"any"` and whose action
is not empty, `ToRuleCreateMap` succeeds, the body has the single entry
`"firewall_rule"`, and the map under it has the key `"protocol"` holding
null, not the string `"any"`. -/
theorem createMap_any_protocol_null (opts : CreateOpts) (hP : opts.Protocol = ProtocolAny)
    (hA : opts.Action ≠ "") :
    ∃ m, opts.ToRuleCreateMap = .done (some [("firewall_rule", .obj m)], none) ∧
      "protocol" ∈ mapKeys m ∧ mapIndex m "protocol" = some .null ∧
      mapIndex m "protocol" ≠ some (.str "any") := by
  have hP' : opts.Protocol = "any" := hP
  have hne : opts.Protocol ≠ "" := by rw [hP']; decide
  refine ⟨_, create_ok opts hne hA, ?_, ?_, ?_⟩
  · simp [mapKeys]
  · simp [mapIndex, hP']
  · simp [mapIndex, hP']

/-- The scenario of claim C1: protocol `"any"` with action `"allow"` gives
`{"firewall_rule": {"protocol": null, "action": "allow"}}`. -/
theorem createMap_any_protocol_null_witness :
    ({ Protocol := "any", Action := "allow" } : CreateOpts).ToRuleCreateMap =
        .done (some [("firewall_rule",
          .obj [("protocol", .null), ("action", .str "allow")])], none) ∧
      ∃ m, ({ Protocol := "any", Action := "allow" } : CreateOpts).ToRuleCreateMap =
          .done (some [("firewall_rule", .obj m)], none) ∧
        "protocol" ∈ mapKeys m ∧ mapIndex m "protocol" = some .null ∧
        mapIndex m "protocol" ≠ some (.str "any") :=
  ⟨rfl, createMap_any_protocol_null { Protocol := "any", Action := "allow" } rfl (by decide)⟩

/-- Claim C2: for a `CreateOpts` whose protocol is `"icmp"`, `"tcp"` or
`"udp"` and whose action is not empty, `ToRuleCreateMap` succeeds and the
map under `"firewall_rule"` holds that very protocol string under
`"protocol"`. -/
theorem createMap_named_protocol_kept (opts : CreateOpts)
    (hP : opts.Protocol = ProtocolICMP ∨ opts.Protocol = ProtocolTCP ∨
      opts.Protocol = ProtocolUDP)
    (hA : opts.Action ≠ "") :
    ∃ m, opts.ToRuleCreateMap = .done (some [("firewall_rule", .obj m)], none) ∧
      mapIndex m "protocol" = some (.str opts.Protocol) := by
  have hne : opts.Protocol ≠ "" := by
    rcases hP with h | h | h <;> rw [h] <;> decide
  have hany : opts.Protocol ≠ "any" := by
    rcases hP with h | h | h <;> rw [h] <;> decide
  refine ⟨_, create_ok opts hne hA, ?_⟩
  simp [mapIndex, hany]

/-- An instance of claim C2: protocol `"udp"` with action `"reject"`. -/
theorem createMap_named_protocol_kept_witness :
    ∃ m, ({ Protocol := "udp", Action := "reject" } : CreateOpts).ToRuleCreateMap =
        .done (some [("firewall_rule", .obj m)], none) ∧
      mapIndex m "protocol" = some (.str "udp") :=
  createMap_named_protocol_kept { Protocol := "udp", Action := "reject" }
    (Or.inr (Or.inr rfl)) (by decide)

/-- Claim C3: for a `CreateOpts` whose protocol or action is empty,
`ToRuleCreateMap` returns a nil map and the error `ErrMissingInput` naming
the first missing field, and `Create` with those options returns a result
with that error and a nil body and leaves the outside world as it was: no
verb of the transport is called, so the log of a recording transport is
unchanged. -/
theorem create_missing_required_fails (opts : CreateOpts)
    (h : opts.Protocol = "" ∨ opts.Action = "") :
    ∃ e, e = GoError.ErrMissingInput (if opts.Protocol = "" then "Protocol" else "Action") ∧
      opts.ToRuleCreateMap = .done (none, some e) ∧
      (∀ (σ : Type) (c : ServiceClient σ) (w : σ),
        Create c opts.asBuilder w = .done ({ Body := none, Err := some e }, w)) ∧
      (∀ (coll : String) (reply : Call → Response) (log : List Call),
        Create (recorder coll reply) opts.asBuilder log =
          .done ({ Body := none, Err := some e }, log)) := by
  refine ⟨_, rfl, create_err opts h, ?_, ?_⟩
  · intro σ c w
    simp only [Create, CreateOpts.asBuilder, create_err opts h]
  · intro coll reply log
    simp only [Create, CreateOpts.asBuilder, create_err opts h]

/-- An instance of claim C3: an action without a protocol. -/
theorem create_missing_required_fails_witness :
    ∃ e, e = GoError.ErrMissingInput
        (if ({ Action := "allow" } : CreateOpts).Protocol = "" then "Protocol" else "Action") ∧
      ({ Action := "allow" } : CreateOpts).ToRuleCreateMap = .done (none, some e) ∧
      (∀ (σ : Type) (c : ServiceClient σ) (w : σ),
        Create c ({ Action := "allow" } : CreateOpts).asBuilder w =
          .done ({ Body := none, Err := some e }, w)) ∧
      (∀ (coll : String) (reply : Call → Response) (log : List Call),
        Create (recorder coll reply) ({ Action := "allow" } : CreateOpts).asBuilder log =
          .done ({ Body := none, Err := some e }, log)) :=
  create_missing_required_fails { Action := "allow" } (Or.inl rfl)

/-- Claim C5: for a `CreateOpts` with a protocol and an action, the body of
`ToRuleCreateMap` has the single top-level key `"firewall_rule"`; the keys
of the map under it are distinct and are `"protocol"`, `"action"` and the
name of each optional field that is not zero; each such optional field
holds its value (a `shared` or `enabled` pointer to `false` an explicit
`false`), and a zero optional field has no entry. `"action"` holds the
action and `"protocol"` the protocol, or null for `"any"`. -/
theorem createMap_shape (opts : CreateOpts) (hP : opts.Protocol ≠ "")
    (hA : opts.Action ≠ "") :
    ∃ m, opts.ToRuleCreateMap = .done (some [("firewall_rule", .obj m)], none) ∧
      mapKeys [("firewall_rule", JSON.obj m)] = ["firewall_rule"] ∧
      (mapKeys m).Nodup ∧
      (∀ k, k ∈ mapKeys m ↔
        k = "protocol" ∨ k = "action" ∨
        (k = "tenant_id" ∧ opts.TenantID ≠ "") ∨ (k = "name" ∧ opts.Name ≠ "") ∨
        (k = "description" ∧ opts.Description ≠ "") ∨
        (k = "ip_version" ∧ opts.IPVersion ≠ 0) ∨
        (k = "source_ip_address" ∧ opts.SourceIPAddress ≠ "") ∨
        (k = "destination_ip_address" ∧ opts.DestinationIPAddress ≠ "") ∨
        (k = "source_port" ∧ opts.SourcePort ≠ "") ∨
        (k = "destination_port" ∧ opts.DestinationPort ≠ "") ∨
        (k = "shared" ∧ opts.Shared ≠ none) ∨ (k = "enabled" ∧ opts.Enabled ≠ none)) ∧
      mapIndex m "protocol" =
        some (if opts.Protocol = "any" then .null else .str opts.Protocol) ∧
      mapIndex m "action" = some (.str opts.Action) ∧
      mapIndex m "tenant_id" =
        (if opts.TenantID = "" then none else some (.str opts.TenantID)) ∧
      mapIndex m "name" = (if opts.Name = "" then none else some (.str opts.Name)) ∧
      mapIndex m "description" =
        (if opts.Description = "" then none else some (.str opts.Description)) ∧
      mapIndex m "ip_version" =
        (if opts.IPVersion = 0 then none else some (.num opts.IPVersion)) ∧
      mapIndex m "source_ip_address" =
        (if opts.SourceIPAddress = "" then none else some (.str opts.SourceIPAddress)) ∧
      mapIndex m "destination_ip_address" =
        (if opts.DestinationIPAddress = "" then none
          else some (.str opts.DestinationIPAddress)) ∧
      mapIndex m "source_port" =
        (if opts.SourcePort = "" then none else some (.str opts.SourcePort)) ∧
      mapIndex m "destination_port" =
        (if opts.DestinationPort = "" then none else some (.str opts.DestinationPort)) ∧
      mapIndex m "shared" = opts.Shared.map JSON.bool ∧
      mapIndex m "enabled" = opts.Enabled.map JSON.bool :=
  ⟨_, create_ok opts hP hA, rfl, create_nodup opts,
    create_mem_keys opts _ _ rfl, create_index opts _ _ rfl⟩

/-- The scenario of claim C5, and a rule that is shared but not enabled:
the pointer to `false` is written out, the unset fields are left out. -/
theorem createMap_shape_witness :
    ({ Protocol := "tcp", Action := "deny", DestinationPort := "80" } :
        CreateOpts).ToRuleCreateMap =
      .done (some [("firewall_rule", .obj [("protocol", .str "tcp"),
        ("action", .str "deny"), ("destination_port", .str "80")])], none) ∧
    ({ Protocol := "tcp", Action := "deny", IPVersion := 4, Shared := some true,
        Enabled := some false } : CreateOpts).ToRuleCreateMap =
      .done (some [("firewall_rule", .obj [("protocol", .str "tcp"),
        ("action", .str "deny"), ("ip_version", .num 4), ("shared", .bool true),
        ("enabled", .bool false)])], none) ∧
    ∃ m, ({ Protocol := "tcp", Action := "deny", DestinationPort := "80" } :
        CreateOpts).ToRuleCreateMap = .done (some [("firewall_rule", .obj m)], none) ∧
      mapKeys [("firewall_rule", JSON.obj m)] = ["firewall_rule"] ∧
      (mapKeys m).Nodup :=
  ⟨rfl, rfl,
    (createMap_shape { Protocol := "tcp", Action := "deny", DestinationPort := "80" }
      (by decide) (by decide)).imp fun _ h => ⟨h.1, h.2.1, h.2.2.1⟩⟩

/-! ## Serialisation of `UpdateOpts` -/

/-- Claim C4: for every `UpdateOpts`, `ToRuleUpdateMap` succeeds with a
body whose single entry is `"firewall_rule"`; the keys of the map under it
are distinct and are exactly the JSON names of the fields that are set;
each holds the value pointed to, be it empty, zero or `false`; a field that
is not set has no entry. Only `Enabled` set to `false` gives
`{"firewall_rule": {"enabled": false}}`. -/
theorem updateMap_only_set_fields (u : UpdateOpts) :
    (∃ m, u.ToRuleUpdateMap = .done (some [("firewall_rule", .obj m)], none) ∧
      (mapKeys m).Nodup ∧
      (∀ k, k ∈ mapKeys m ↔
        (k = "protocol" ∧ u.Protocol.isSome) ∨ (k = "action" ∧ u.Action.isSome) ∨
        (k = "name" ∧ u.Name.isSome) ∨ (k = "description" ∧ u.Description.isSome) ∨
        (k = "ip_version" ∧ u.IPVersion.isSome) ∨
        (k = "source_ip_address" ∧ u.SourceIPAddress.isSome) ∨
        (k = "destination_ip_address" ∧ u.DestinationIPAddress.isSome) ∨
        (k = "source_port" ∧ u.SourcePort.isSome) ∨
        (k = "destination_port" ∧ u.DestinationPort.isSome) ∨
        (k = "shared" ∧ u.Shared.isSome) ∨ (k = "enabled" ∧ u.Enabled.isSome)) ∧
      mapIndex m "protocol" = u.Protocol.map JSON.str ∧
      mapIndex m "action" = u.Action.map JSON.str ∧
      mapIndex m "name" = u.Name.map JSON.str ∧
      mapIndex m "description" = u.Description.map JSON.str ∧
      mapIndex m "ip_version" = u.IPVersion.map JSON.num ∧
      mapIndex m "source_ip_address" = u.SourceIPAddress.map JSON.str ∧
      mapIndex m "destination_ip_address" = u.DestinationIPAddress.map JSON.str ∧
      mapIndex m "source_port" = u.SourcePort.map JSON.str ∧
      mapIndex m "destination_port" = u.DestinationPort.map JSON.str ∧
      mapIndex m "shared" = u.Shared.map JSON.bool ∧
      mapIndex m "enabled" = u.Enabled.map JSON.bool) ∧
    ({ Enabled := some false } : UpdateOpts).ToRuleUpdateMap =
      .done (some [("firewall_rule", .obj [("enabled", .bool false)])], none) ∧
    ({ Name := some "", IPVersion := some 0 } : UpdateOpts).ToRuleUpdateMap =
      .done (some [("firewall_rule", .obj [("name", .str ""), ("ip_version", .num 0)])],
        none) :=
  ⟨⟨_, update_ok u, update_nodup u, update_mem_keys u, update_index u⟩, rfl, rfl⟩

/-- Claim C7: `Update` does not rewrite `"any"`. For an `UpdateOpts` whose
protocol is set to `"any"`, the map under `"firewall_rule"` holds the
string `"any"` under `"protocol"`, and `Update` PUTs that very body;
a `CreateOpts` with the same protocol (and an action) has null there. -/
theorem update_keeps_any (u : UpdateOpts) (hP : u.Protocol = some ProtocolAny) :
    (∃ m, u.ToRuleUpdateMap = .done (some [("firewall_rule", .obj m)], none) ∧
      mapIndex m "protocol" = some (.str "any") ∧
      (∀ (coll id : String) (reply : Call → Response) (log : List Call),
        Update (recorder coll reply) id u.asBuilder log =
          .done (
            { Body := (reply ⟨"PUT", coll ++ "/" ++ id,
                some (some [("firewall_rule", .obj m)]), some ⟨[200]⟩⟩).body,
              Err := (reply ⟨"PUT", coll ++ "/" ++ id,
                some (some [("firewall_rule", .obj m)]), some ⟨[200]⟩⟩).err },
            log ++ [⟨"PUT", coll ++ "/" ++ id,
              some (some [("firewall_rule", .obj m)]), some ⟨[200]⟩⟩]))) ∧
    (∀ co : CreateOpts, co.Protocol = ProtocolAny → co.Action ≠ "" →
      ∃ m, co.ToRuleCreateMap = .done (some [("firewall_rule", .obj m)], none) ∧
        mapIndex m "protocol" = some .null) := by
  refine ⟨⟨_, update_ok u, ?_, ?_⟩, ?_⟩
  · rw [(update_index u).1, hP]; rfl
  · intro coll id reply log
    simp only [Update, UpdateOpts.asBuilder, update_ok u, recorder, resourceURL]
  · intro co hc hA
    have hc' : co.Protocol = "any" := hc
    have hne : co.Protocol ≠ "" := by rw [hc']; decide
    refine ⟨_, create_ok co hne hA, ?_⟩
    simp [mapIndex, hc']

/-- An instance of claim C7: an update that sets only the protocol, to
`"any"`. -/
theorem update_keeps_any_witness :
    ({ Protocol := some "any" } : UpdateOpts).ToRuleUpdateMap =
      .done (some [("firewall_rule", .obj [("protocol", .str "any")])], none) ∧
    ((∃ m, ({ Protocol := some "any" } : UpdateOpts).ToRuleUpdateMap =
        .done (some [("firewall_rule", .obj m)], none) ∧
      mapIndex m "protocol" = some (.str "any") ∧
      (∀ (coll id : String) (reply : Call → Response) (log : List Call),
        Update (recorder coll reply) id ({ Protocol := some "any" } : UpdateOpts).asBuilder log =
          .done (
            { Body := (reply ⟨"PUT", coll ++ "/" ++ id,
                some (some [("firewall_rule", .obj m)]), some ⟨[200]⟩⟩).body,
              Err := (reply ⟨"PUT", coll ++ "/" ++ id,
                some (some [("firewall_rule", .obj m)]), some ⟨[200]⟩⟩).err },
            log ++ [⟨"PUT", coll ++ "/" ++ id,
              some (some [("firewall_rule", .obj m)]), some ⟨[200]⟩⟩]))) ∧
    (∀ co : CreateOpts, co.Protocol = ProtocolAny → co.Action ≠ "" →
      ∃ m, co.ToRuleCreateMap = .done (some [("firewall_rule", .obj m)], none) ∧
        mapIndex m "protocol" = some .null)) :=
  ⟨rfl, update_keeps_any { Protocol := some "any" } rfl⟩

/-! ## The operations -/

/-- Against claim C6: a builder that is not a `CreateOpts` and whose body
has the literal `"any"` as protocol. `Create` POSTs that body as it is:
the protocol sent is the string `"any"`, not null. -/
theorem create_sends_literal_any :
    literalAnyBuilder.ToRuleCreateMap =
      .done (some [("firewall_rule",
        .obj [("protocol", .str "any"), ("action", .str "allow")])], none) ∧
    mapIndex [("protocol", JSON.str "any"), ("action", JSON.str "allow")] "protocol" =
      some (.str "any") ∧
    Create (recorder "rules" emptyReply) literalAnyBuilder [] =
      .done ({ Body := none, Err := none },
        [⟨"POST", "rules", some (some [("firewall_rule",
          .obj [("protocol", .str "any"), ("action", .str "allow")])]), none⟩]) :=
  ⟨rfl, rfl, rfl⟩

/-- Claim C6, amended: for every builder whose serialisation succeeds,
`Create` POSTs to the collection URL, with nil options, the very body the
builder returned, and the result holds what the transport answers; the
rewrite of `"any"` is made by `CreateOpts.ToRuleCreateMap`, so for a
`CreateOpts` with protocol `"any"` and an action the body that `Create`
sends holds null under `"protocol"`. -/
theorem create_posts_builder_body {σ : Type} (c : ServiceClient σ) (opts : CreateOptsBuilder)
    (b : Option Payload) (w : σ) (h : opts.ToRuleCreateMap = .done (b, none)) :
    Create c opts w =
      .done ({ Body := (c.Post (rootURL c) b none w).1.body,
               Err := (c.Post (rootURL c) b none w).1.err },
        (c.Post (rootURL c) b none w).2) ∧
    (∀ (coll : String) (reply : Call → Response) (log : List Call),
      Create (recorder coll reply) opts log =
        .done ({ Body := (reply ⟨"POST", coll, some b, none⟩).body,
                 Err := (reply ⟨"POST", coll, some b, none⟩).err },
          log ++ [⟨"POST", coll, some b, none⟩])) ∧
    (∀ (co : CreateOpts), co.Protocol = ProtocolAny → co.Action ≠ "" →
      ∀ (coll : String) (reply : Call → Response) (log : List Call),
        ∃ m, mapIndex m "protocol" = some .null ∧
          Create (recorder coll reply) co.asBuilder log =
            .done (
              { Body := (reply ⟨"POST", coll, some (some [("firewall_rule", .obj m)]),
                  none⟩).body,
                Err := (reply ⟨"POST", coll, some (some [("firewall_rule", .obj m)]),
                  none⟩).err },
              log ++ [⟨"POST", coll, some (some [("firewall_rule", .obj m)]), none⟩])) := by
  refine ⟨?_, ?_, ?_⟩
  · simp only [Create, h]
  · intro coll reply log
    simp only [Create, h, recorder, rootURL]
  · intro co hc hA coll reply log
    have hc' : co.Protocol = "any" := hc
    have hne : co.Protocol ≠ "" := by rw [hc']; decide
    refine ⟨("protocol", if co.Protocol = "any" then JSON.null else .str co.Protocol) ::
      ("action", .str co.Action) :: marshalFields (co.fields.drop 2), ?_, ?_⟩
    · simp [mapIndex, hc']
    · simp only [Create, CreateOpts.asBuilder, create_ok co hne hA, recorder, rootURL]

/-- An instance of the amended claim C6: the literal builder, whose body
is sent as it is. -/
theorem create_posts_builder_body_witness :
    Create (recorder "rules" emptyReply) literalAnyBuilder [] =
      .done ({ Body := ((recorder "rules" emptyReply).Post
                 (rootURL (recorder "rules" emptyReply)) (some [("firewall_rule",
                   .obj [("protocol", .str "any"), ("action", .str "allow")])])
                 none []).1.body,
               Err := ((recorder "rules" emptyReply).Post
                 (rootURL (recorder "rules" emptyReply)) (some [("firewall_rule",
                   .obj [("protocol", .str "any"), ("action", .str "allow")])])
                 none []).1.err },
        ((recorder "rules" emptyReply).Post
          (rootURL (recorder "rules" emptyReply)) (some [("firewall_rule",
            .obj [("protocol", .str "any"), ("action", .str "allow")])]) none []).2) :=
  (create_posts_builder_body (recorder "rules" emptyReply) literalAnyBuilder
    (some [("firewall_rule", .obj [("protocol", .str "any"), ("action", .str "allow")])])
    [] rfl).1

/-- Claim C8: when the builder's serialisation method returns an error,
`Create` and `Update` return a result whose error is that error and whose
body is nil, and the outside world is as it was: no verb of the transport
is called, so the log of a recording transport is unchanged. -/
theorem serialisation_error_stops_call {σ : Type} (c : ServiceClient σ) (id : String) (w : σ)
    (co : CreateOptsBuilder) (uo : UpdateOptsBuilder) (b1 b2 : Option Payload)
    (e1 e2 : GoError) (h1 : co.ToRuleCreateMap = .done (b1, some e1))
    (h2 : uo.ToRuleUpdateMap = .done (b2, some e2)) :
    Create c co w = .done ({ Body := none, Err := some e1 }, w) ∧
    Update c id uo w = .done ({ Body := none, Err := some e2 }, w) ∧
    (∀ (coll : String) (reply : Call → Response) (log : List Call),
      Create (recorder coll reply) co log = .done ({ Body := none, Err := some e1 }, log) ∧
      Update (recorder coll reply) id uo log =
        .done ({ Body := none, Err := some e2 }, log)) := by
  refine ⟨?_, ?_, ?_⟩
  · simp only [Create, h1]
  · simp only [Update, h2]
  · intro coll reply log
    constructor
    · simp only [Create, h1]
    · simp only [Update, h2]

/-- An instance of claim C8: a `CreateOpts` without its required fields
and an update builder that fails, against a recording transport with an
empty log. -/
theorem serialisation_error_stops_call_witness :
    Create (recorder "rules" emptyReply) ({} : CreateOpts).asBuilder [] =
      .done ({ Body := none, Err := some (.ErrMissingInput "Protocol") }, []) ∧
    Update (recorder "rules" emptyReply) "rule-123"
        (failingUpdateBuilder (.other "bad options")) [] =
      .done ({ Body := none, Err := some (.other "bad options") }, []) ∧
    (∀ (coll : String) (reply : Call → Response) (log : List Call),
      Create (recorder coll reply) ({} : CreateOpts).asBuilder log =
        .done ({ Body := none, Err := some (.ErrMissingInput "Protocol") }, log) ∧
      Update (recorder coll reply) "rule-123"
          (failingUpdateBuilder (.other "bad options")) log =
        .done ({ Body := none, Err := some (.other "bad options") }, log)) :=
  serialisation_error_stops_call (recorder "rules" emptyReply) "rule-123" []
    ({} : CreateOpts).asBuilder (failingUpdateBuilder (.other "bad options")) none none
    (.ErrMissingInput "Protocol") (.other "bad options") rfl rfl

/-- Claim C9: when the builder's serialisation succeeds, `Update` calls the
transport's PUT once, on the resource URL of the identifier, with the
builder's body and with `OkCodes` being `[200]`; the result holds the body
and the error that this call gives back. Against a recording transport the
log grows by that one call. -/
theorem update_puts_once {σ : Type} (c : ServiceClient σ) (id : String)
    (opts : UpdateOptsBuilder) (b : Option Payload) (w : σ)
    (h : opts.ToRuleUpdateMap = .done (b, none)) :
    Update c id opts w =
      .done ({ Body := (c.Put (resourceURL c id) b (some ⟨[200]⟩) w).1.body,
               Err := (c.Put (resourceURL c id) b (some ⟨[200]⟩) w).1.err },
        (c.Put (resourceURL c id) b (some ⟨[200]⟩) w).2) ∧
    (∀ (coll : String) (reply : Call → Response) (log : List Call),
      Update (recorder coll reply) id opts log =
        .done ({ Body := (reply ⟨"PUT", coll ++ "/" ++ id, some b, some ⟨[200]⟩⟩).body,
                 Err := (reply ⟨"PUT", coll ++ "/" ++ id, some b, some ⟨[200]⟩⟩).err },
          log ++ [⟨"PUT", coll ++ "/" ++ id, some b, some ⟨[200]⟩⟩])) := by
  refine ⟨?_, ?_⟩
  · simp only [Update, h]
  · intro coll reply log
    simp only [Update, h, recorder, resourceURL]

/-- The scenario of claim C9: `Update` of `rule-123` with only `Enabled`
set to `false` PUTs `{"firewall_rule": {"enabled": false}}` to
`.../rules/rule-123`, accepting 200 only; the error of the transport is
the error of the result. -/
theorem update_puts_once_witness :
    Update (recorder ".../rules" refusingReply) "rule-123"
        ({ Enabled := some false } : UpdateOpts).asBuilder [] =
      .done ({ Body := none, Err := some (.other "unexpected status") },
        [⟨"PUT", ".../rules/rule-123",
          some (some [("firewall_rule", .obj [("enabled", .bool false)])]),
          some ⟨[200]⟩⟩]) ∧
    (∀ (coll : String) (reply : Call → Response) (log : List Call),
      Update (recorder coll reply) "rule-123"
          ({ Enabled := some false } : UpdateOpts).asBuilder log =
        .done (
          { Body := (reply ⟨"PUT", coll ++ "/" ++ "rule-123",
              some (some [("firewall_rule", .obj [("enabled", .bool false)])]),
              some ⟨[200]⟩⟩).body,
            Err := (reply ⟨"PUT", coll ++ "/" ++ "rule-123",
              some (some [("firewall_rule", .obj [("enabled", .bool false)])]),
              some ⟨[200]⟩⟩).err },
          log ++ [⟨"PUT", coll ++ "/" ++ "rule-123",
            some (some [("firewall_rule", .obj [("enabled", .bool false)])]),
            some ⟨[200]⟩⟩])) :=
  ⟨rfl, (update_puts_once (recorder ".../rules" refusingReply) "rule-123"
    ({ Enabled := some false } : UpdateOpts).asBuilder
    (some [("firewall_rule", .obj [("enabled", .bool false)])]) [] rfl).2⟩

/-- Claim C10: `Delete` calls the transport's DELETE once, on the resource
URL of the identifier, with no request body and nil options, and the
error of the result is the error that this call gives back. Against a
recording transport the log grows by that one call; a refused DELETE of
`rule-123` is one call to `.../rules/rule-123` and its error. -/
theorem delete_calls_once {σ : Type} (c : ServiceClient σ) (id : String) (w : σ) :
    Delete c id w =
      ({ Err := (c.Delete (resourceURL c id) none w).1 },
        (c.Delete (resourceURL c id) none w).2) ∧
    resourceURL c id = c.collectionURL ++ "/" ++ id ∧
    (∀ (coll : String) (reply : Call → Response) (log : List Call),
      Delete (recorder coll reply) id log =
        ({ Err := (reply ⟨"DELETE", coll ++ "/" ++ id, none, none⟩).err },
          log ++ [⟨"DELETE", coll ++ "/" ++ id, none, none⟩])) ∧
    Delete (recorder ".../rules" refusingReply) "rule-123" [] =
      ({ Err := some (.other "unexpected status") },
        [⟨"DELETE", ".../rules/rule-123", none, none⟩]) := by
  refine ⟨?_, rfl, ?_, ?_⟩
  · simp only [Delete]
  · intro coll reply log
    simp only [Delete, recorder, resourceURL]
  · rfl

end Rules
